import Mathlib

/-!
Verification of the stateful gesture recognizer of the aegis-gesture-control
repository (src/backend/gesture_recognizer.py, constants from
src/backend/config.py).  The Python class `GestureRecognizer` is embedded as
a state record plus a pure transition function `update` that takes the
current wall-clock time (the source reads `time.time()` inside one call;
both reads within a single call are modelled as the same instant) and one
frame observation, and returns the successor state together with an
optional emitted event.  Python floats are idealised as real numbers:
`math.hypot` becomes `Real.sqrt` of the sum of squares, `math.atan2` the
usual case split over `Real.arctan`, `math.pi` becomes `Real.pi`, and
`round(x, 3)` rounds `x * 1000` to the nearest integer.
-/

namespace Aegis

open scoped Classical

/-- A normalized image-plane point (the source passes `(x, y)` tuples;
the unused `z` coordinate of landmark triples is dropped). -/
structure Pt where
  x : ℝ
  y : ℝ

/-- The two landmarks the recognizer reads from a hand dict plus the
precomputed palm center (`hand["landmarks"]["wrist"]`,
`hand["landmarks"]["middle_mcp"]`, `hand["palm_center"]`). -/
structure Hand where
  wrist : Pt
  middle_mcp : Pt
  palm_center : Pt

/-- One frame of `hand_data` as produced by HandDetector.process. -/
structure HandData where
  detected : Bool
  hand_count : ℕ
  hands : List Hand

/-- The eight gesture kinds `update` can emit. -/
inductive Gesture where
  | zoom_in | zoom_out | pan_left | pan_right
  | pitch_up | pitch_down | bearing_cw | bearing_ccw
deriving DecidableEq

/-- The recognizer's state constants STATE_IDLE .. STATE_BEARING_CCW. -/
inductive RState where
  | idle | zoom | swipe_left | swipe_right
  | pitch_up | pitch_down | bearing_cw | bearing_ccw
deriving DecidableEq

/-- An emitted event: the source returns a dict with the gesture name and a
single numeric payload (keyed "intensity" for zoom/pitch/bearing and
"velocity" for pan); the payload is the `magnitude` field here. -/
structure Event where
  gesture : Gesture
  magnitude : ℝ

/-- Gesture-recognition constants from src/backend/config.py. -/
def ZOOM_DIST_RATE_MIN : ℝ := 0.015

def SWIPE_VELOCITY_THRESHOLD : ℝ := 0.04

def SWIPE_MIN_FRAMES : ℕ := 3

def SMOOTHING_WINDOW : ℕ := 5

def GESTURE_COOLDOWN_MS : ℝ := 80

def ACTIVATION_ZONE : ℝ × ℝ × ℝ × ℝ := (0.2, 0.8, 0.15, 0.85)

def PITCH_TILT_RATE_MIN : ℝ := 0.03

def PITCH_COOLDOWN_MS : ℝ := 50

def BEARING_ANGLE_RATE_MIN : ℝ := 0.06

def BEARING_COOLDOWN_MS : ℝ := 50

/-- The mutable state of one `GestureRecognizer` instance (its fields after
`__init__`).  The cooldown dict maps a gesture kind to the timestamp of its
last emission, absent entries modelled as `none`.  `coast_dir` and
`coast_frames` are declared by the source but never consulted by any
decision (vestigial, see spec section 9). -/
structure GestureRecognizer where
  state : RState
  dist_buf : List ℝ
  palm_buf : List Pt
  tilt_buf : List ℝ
  angle_buf : List ℝ
  swipe_frames_left : ℕ
  swipe_frames_right : ℕ
  coast_dir : ℤ
  coast_frames : ℕ
  cooldowns : Gesture → Option ℝ

/-- The class constant `self._COAST_MAX = 12` (never consulted). -/
def COAST_MAX : ℕ := 12

/-- The state `__init__` builds: Idle, empty buffers, zero counters, empty
cooldown dict. -/
def init_state : GestureRecognizer :=
  { state := .idle
    dist_buf := []
    palm_buf := []
    tilt_buf := []
    angle_buf := []
    swipe_frames_left := 0
    swipe_frames_right := 0
    coast_dir := 0
    coast_frames := 0
    cooldowns := fun _ => none }

/-- Append to a `collections.deque(maxlen := m)`: the new element goes to
the back and the front is dropped while the length exceeds `m`. -/
def dqAppend {α : Type} (m : ℕ) (buf : List α) (a : α) : List α :=
  let b := buf ++ [a]
  if m < b.length then b.drop (b.length - m) else b

/-- Euclidean distance `_dist2d` between two points (`math.hypot` of the
coordinate differences). -/
noncomputable def dist2d (a b : Pt) : ℝ :=
  Real.sqrt ((a.x - b.x) ^ 2 + (a.y - b.y) ^ 2)

/-- The two-argument arctangent `math.atan2 dy dx` for real arguments. -/
noncomputable def atan2 (y x : ℝ) : ℝ :=
  if 0 < x then Real.arctan (y / x)
  else if x < 0 then
    (if 0 ≤ y then Real.arctan (y / x) + Real.pi
     else Real.arctan (y / x) - Real.pi)
  else if 0 < y then Real.pi / 2
  else if y < 0 then -(Real.pi / 2)
  else 0

/-- Python `round(x, 3)`: the third-decimal rounding applied to every
emitted magnitude (ties, which Python resolves to even, are rounded up
here; no claim depends on tie behaviour). -/
noncomputable def round3 (x : ℝ) : ℝ := (round (x * 1000) : ℤ) / 1000

/-- The `_in_activation_zone` test over config.ACTIVATION_ZONE: inclusive
on all four bounds. -/
def in_activation_zone (p : Pt) : Prop :=
  ACTIVATION_ZONE.1 ≤ p.x ∧ p.x ≤ ACTIVATION_ZONE.2.1 ∧
    ACTIVATION_ZONE.2.2.1 ≤ p.y ∧ p.y ≤ ACTIVATION_ZONE.2.2.2

/-- The `_reset_buffers` helper: clears the four sliding buffers, both
swipe counters and the coasting fields (state and cooldowns untouched). -/
def reset_buffers (st : GestureRecognizer) : GestureRecognizer :=
  { st with
      dist_buf := []
      palm_buf := []
      tilt_buf := []
      angle_buf := []
      swipe_frames_left := 0
      swipe_frames_right := 0
      coast_dir := 0
      coast_frames := 0 }

/-- The category cooldown `_can_emit` selects by the gesture name's
prefix: pitch kinds and bearing kinds get their own intervals, everything
else (zoom and pan) the default. -/
def cooldown_ms : Gesture → ℝ
  | .pitch_up | .pitch_down => PITCH_COOLDOWN_MS
  | .bearing_cw | .bearing_ccw => BEARING_COOLDOWN_MS
  | _ => GESTURE_COOLDOWN_MS

/-- The `_can_emit` gate: at least the category interval (in ms) has
elapsed since the kind's recorded last emission, a missing dict entry
reading as timestamp 0.0. -/
def can_emit (st : GestureRecognizer) (now : ℝ) (g : Gesture) : Prop :=
  cooldown_ms g ≤ (now - ((st.cooldowns g).getD 0)) * 1000

/-- The `_record_emit` helper: stamp the kind's cooldown entry with the
current time. -/
def record_emit (st : GestureRecognizer) (now : ℝ) (g : Gesture) :
    GestureRecognizer :=
  { st with cooldowns := fun k => if k = g then some now else st.cooldowns k }

/-- The `_hand_norm_dy` helper: normalized vertical component of the
wrist-to-middle_mcp vector, defined only when that segment is at least
0.01 long. -/
noncomputable def hand_norm_dy (h : Hand) : Option ℝ :=
  let dx := h.middle_mcp.x - h.wrist.x
  let dy := h.middle_mcp.y - h.wrist.y
  let length := Real.sqrt (dx ^ 2 + dy ^ 2)
  if 0.01 ≤ length then some (dy / length) else none

/-- Lines 262-280 of `_eval_swipe`: the confirmation checks, run on the
state whose counters were just updated; a confirmed direction is routed
through the cooldown gate and, only on passing it, the state is set and a
pan event returned (note the state write comes after the gate here). -/
noncomputable def swipe_confirm (now : ℝ) (s : GestureRecognizer)
    (velocity : ℝ) : GestureRecognizer × Option Event :=
  if SWIPE_MIN_FRAMES ≤ s.swipe_frames_left then
    if can_emit s now .pan_left then
      ({ record_emit s now .pan_left with state := .swipe_left },
        some ⟨.pan_left, round3 |velocity|⟩)
    else (s, none)
  else if SWIPE_MIN_FRAMES ≤ s.swipe_frames_right then
    if can_emit s now .pan_right then
      ({ record_emit s now .pan_right with state := .swipe_right },
        some ⟨.pan_right, round3 |velocity|⟩)
    else (s, none)
  else (s, none)

/-- The `_eval_swipe` helper: update the consecutive-frame counters from
the signed window velocity (zeroing both and reporting no swipe when the
velocity is inside the dead band), then run the confirmation checks. -/
noncomputable def eval_swipe (now : ℝ) (st : GestureRecognizer)
    (velocity : ℝ) : GestureRecognizer × Option Event :=
  if velocity < -SWIPE_VELOCITY_THRESHOLD then
    swipe_confirm now
      { st with
        swipe_frames_left := st.swipe_frames_left + 1
        swipe_frames_right := 0 } velocity
  else if SWIPE_VELOCITY_THRESHOLD < velocity then
    swipe_confirm now
      { st with
        swipe_frames_right := st.swipe_frames_right + 1
        swipe_frames_left := 0 } velocity
  else
    ({ st with swipe_frames_left := 0, swipe_frames_right := 0 }, none)

/-- The wraparound correction inside `_eval_bearing`'s loop: a raw
consecutive-angle delta is adjusted by minus or plus 2*pi when it exceeds
pi or falls below -pi. -/
noncomputable def unwrap_delta (d : ℝ) : ℝ :=
  if Real.pi < d then d - 2 * Real.pi
  else if d < -Real.pi then d + 2 * Real.pi
  else d

/-- The accumulation loop of `_eval_bearing`: sum the unwrapped deltas of
consecutive buffered angles. -/
noncomputable def total_delta : List ℝ → ℝ
  | [] => 0
  | [_] => 0
  | a :: b :: rest => unwrap_delta (b - a) + total_delta (b :: rest)

/-- The decision part of `_eval_bearing` (source lines 309-333), taken on
the state whose angle buffer already holds the new sample: window the net
rotation, threshold it, write the bearing state, then gate the event. -/
noncomputable def bearing_decide (now : ℝ) (st : GestureRecognizer) :
    GestureRecognizer × Option Event :=
  if st.angle_buf.length < 2 then (st, none)
  else
    let td := total_delta st.angle_buf
    if |td| < BEARING_ANGLE_RATE_MIN then (st, none)
    else
      let g : Gesture := if 0 < td then .bearing_cw else .bearing_ccw
      let intensity := min (|td| / (Real.pi / 3)) 1
      let st2 := { st with state :=
        if g = .bearing_cw then RState.bearing_cw else RState.bearing_ccw }
      if can_emit st2 now g then
        (record_emit st2 now g, some ⟨g, round3 intensity⟩)
      else (st2, none)

/-- The `_eval_bearing` helper: reject a degenerate wrist-to-middle_mcp
segment, append the atan2 angle, then decide. -/
noncomputable def eval_bearing (now : ℝ) (st : GestureRecognizer)
    (h : Hand) : GestureRecognizer × Option Event :=
  let dx := h.middle_mcp.x - h.wrist.x
  let dy := h.middle_mcp.y - h.wrist.y
  let length := Real.sqrt (dx ^ 2 + dy ^ 2)
  if length < 0.01 then (st, none)
  else
    bearing_decide now
      { st with angle_buf := dqAppend SMOOTHING_WINDOW st.angle_buf (atan2 dy dx) }

/-- The `_eval_two_hand_pitch` helper: window the averaged-tilt buffer,
threshold it, pick pitch_up for a decreasing vertical component, write the
pitch state, then gate the event. -/
noncomputable def eval_two_hand_pitch (now : ℝ) (st : GestureRecognizer) :
    GestureRecognizer × Option Event :=
  if st.tilt_buf.length < 2 then (st, none)
  else
    let tr := st.tilt_buf.getLastD 0 - st.tilt_buf.headD 0
    if |tr| < PITCH_TILT_RATE_MIN then (st, none)
    else
      let g : Gesture := if tr < 0 then .pitch_up else .pitch_down
      let intensity := min (|tr| / 0.3) 1
      let st2 := { st with state :=
        if g = .pitch_up then RState.pitch_up else RState.pitch_down }
      if can_emit st2 now g then
        (record_emit st2 now g, some ⟨g, round3 intensity⟩)
      else (st2, none)

/-- The buffer-filling phase of `_eval_two_hand` (source lines 155-161):
append the inter-palm distance, and the averaged tilt when both hands
yield one. -/
noncomputable def two_hand_append (st : GestureRecognizer) (ha hb : Hand) :
    GestureRecognizer :=
  let st1 := { st with dist_buf := dqAppend SMOOTHING_WINDOW st.dist_buf (dist2d ha.palm_center hb.palm_center) }
  match hand_norm_dy ha, hand_norm_dy hb with
  | some a, some b =>
      { st1 with tilt_buf := dqAppend SMOOTHING_WINDOW st1.tilt_buf ((a + b) / 2) }
  | _, _ => st1

/-- The decision part of `_eval_two_hand` (source lines 163-179), taken on
the state with freshly appended buffers: require two distance samples,
give the zoom window-rate priority, else fall through to pitch. -/
noncomputable def two_hand_decide (now : ℝ) (st : GestureRecognizer) :
    GestureRecognizer × Option Event :=
  if st.dist_buf.length < 2 then (st, none)
  else
    let dr := st.dist_buf.getLastD 0 - st.dist_buf.headD 0
    if ZOOM_DIST_RATE_MIN ≤ |dr| then
      let st3 := { st with state := RState.zoom }
      let g : Gesture := if 0 < dr then .zoom_out else .zoom_in
      let intensity := min (|dr| / 0.3) 1
      if can_emit st3 now g then
        (record_emit st3 now g, some ⟨g, round3 intensity⟩)
      else (st3, none)
    else eval_two_hand_pitch now st

/-- The `_eval_two_hand` helper: clear the single-hand state, reject the
frame when neither palm center is inside the activation zone (clearing the
two-hand buffers, state untouched), else append and decide. -/
noncomputable def eval_two_hand (now : ℝ) (st : GestureRecognizer)
    (ha hb : Hand) : GestureRecognizer × Option Event :=
  let st0 := { st with
    palm_buf := []
    angle_buf := []
    swipe_frames_left := 0
    swipe_frames_right := 0 }
  if ¬ in_activation_zone ha.palm_center ∧ ¬ in_activation_zone hb.palm_center then
    ({ st0 with dist_buf := [], tilt_buf := [] }, none)
  else
    two_hand_decide now (two_hand_append st0 ha hb)

/-- The `_eval_single_hand` helper: clear the two-hand buffers, full-reset
to Idle when the palm center leaves the activation zone, else append the
palm position, require two samples, and try the swipe before bearing; the
angle buffer is cleared only when the swipe call actually returns an
event. -/
noncomputable def eval_single_hand (now : ℝ) (st : GestureRecognizer)
    (h : Hand) : GestureRecognizer × Option Event :=
  let st0 := { st with dist_buf := [], tilt_buf := [] }
  if ¬ in_activation_zone h.palm_center then
    ({ reset_buffers st0 with state := .idle }, none)
  else
    let st1 := { st0 with palm_buf := dqAppend SMOOTHING_WINDOW st0.palm_buf h.palm_center }
    if st1.palm_buf.length < 2 then (st1, none)
    else
      let velocity := (st1.palm_buf.getLastD ⟨0, 0⟩).x -
        (st1.palm_buf.headD ⟨0, 0⟩).x
      let r := eval_swipe now st1 velocity
      if r.2.isSome then ({ r.1 with angle_buf := [] }, r.2)
      else eval_bearing now r.1 h

/-- The public `update` method: route by detection flag and hand count.
Python would raise an IndexError were `hands` shorter than the claimed
hand count (a contract violation per spec sections 4.1 and 7); the
embedding reads the first two hands with a zero default that no claim
exercises. -/
noncomputable def update (now : ℝ) (st : GestureRecognizer)
    (hd : HandData) : GestureRecognizer × Option Event :=
  if hd.detected = false then
    ({ reset_buffers st with state := .idle }, none)
  else if 2 ≤ hd.hand_count then
    eval_two_hand now st (hd.hands.getD 0 ⟨⟨0, 0⟩, ⟨0, 0⟩, ⟨0, 0⟩⟩)
      (hd.hands.getD 1 ⟨⟨0, 0⟩, ⟨0, 0⟩, ⟨0, 0⟩⟩)
  else if hd.hand_count = 1 then
    eval_single_hand now st (hd.hands.getD 0 ⟨⟨0, 0⟩, ⟨0, 0⟩, ⟨0, 0⟩⟩)
  else
    ({ reset_buffers st with state := .idle }, none)

/-- Fold `update` over a timed frame sequence: the final recognizer
state. -/
noncomputable def run (st : GestureRecognizer) :
    List (ℝ × HandData) → GestureRecognizer
  | [] => st
  | (t, hd) :: rest => run (update t st hd).1 rest

/-- Fold `update` over a timed frame sequence: the emitted events, each
stamped with its frame time. -/
noncomputable def emissions (st : GestureRecognizer) :
    List (ℝ × HandData) → List (ℝ × Event)
  | [] => []
  | (t, hd) :: rest =>
      (match (update t st hd).2 with
       | some e => [((t : ℝ), e)]
       | none => []) ++ emissions (update t st hd).1 rest

/-- Cooldown bookkeeping of one transition, relating the pre-state to a
returned (post-state, event) pair: no event leaves the cooldown dict
untouched, an emitted event passed the gate against the pre-state's dict
and stamped exactly its own kind with the current time. -/
def cooldown_step (pre : GestureRecognizer) (now : ℝ)
    (r : GestureRecognizer × Option Event) : Prop :=
  match r.2 with
  | none => r.1.cooldowns = pre.cooldowns
  | some e => can_emit pre now e.gesture ∧
      r.1.cooldowns = fun k => if k = e.gesture then some now else pre.cooldowns k

/-- All six coordinates the recognizer reads from a hand lie in the
normalized interval, as spec section 1 assumes of detector output. -/
def hand_in_range (h : Hand) : Prop :=
  (0 ≤ h.wrist.x ∧ h.wrist.x ≤ 1) ∧ (0 ≤ h.wrist.y ∧ h.wrist.y ≤ 1) ∧
  (0 ≤ h.middle_mcp.x ∧ h.middle_mcp.x ≤ 1) ∧
  (0 ≤ h.middle_mcp.y ∧ h.middle_mcp.y ≤ 1) ∧
  (0 ≤ h.palm_center.x ∧ h.palm_center.x ≤ 1) ∧
  (0 ≤ h.palm_center.y ∧ h.palm_center.y ≤ 1)

/-- Concrete input for the first counterexample: a hand resting at the
frame center (wrist and middle_mcp coincide, so bearing rejects the
frame). -/
def c1Hand : Hand := ⟨⟨0.5, 0.5⟩, ⟨0.5, 0.5⟩, ⟨0.5, 0.5⟩⟩

/-- Concrete pre-state for the first counterexample: one buffered palm
sample at x = 0.6, two consecutive leftward frames already counted, and a
pan_left emission recorded at time 100 so the gate is closed. -/
def c1St : GestureRecognizer :=
  { init_state with
    palm_buf := [⟨0.6, 0.5⟩]
    swipe_frames_left := 2
    cooldowns := fun k => if k = Gesture.pan_left then some 100 else none }

/-- Frame observation for the first counterexample. -/
def c1Hd : HandData := ⟨true, 1, [c1Hand]⟩

/-- Concrete input for the second counterexample: the hand points right
(middle_mcp at x + 0.1), giving a valid atan2 sample. -/
def c2Hand : Hand := ⟨⟨0.5, 0.5⟩, ⟨0.6, 0.5⟩, ⟨0.5, 0.5⟩⟩

/-- Concrete pre-state for the second counterexample: like the first but
with a stale angle sample of 1.5 rad already buffered. -/
def c2St : GestureRecognizer :=
  { init_state with
    palm_buf := [⟨0.6, 0.5⟩]
    angle_buf := [1.5]
    swipe_frames_left := 2
    cooldowns := fun k => if k = Gesture.pan_left then some 100 else none }

/-- Frame observation for the second counterexample. -/
def c2Hd : HandData := ⟨true, 1, [c2Hand]⟩

/-- The state the second counterexample reaches right after its pan_left
confirmation is suppressed by the cooldown gate: counters updated, palm
sample appended, stale angle sample still buffered. -/
def c2Mid : GestureRecognizer :=
  { state := .idle
    dist_buf := []
    palm_buf := [⟨0.6, 0.5⟩, ⟨0.5, 0.5⟩]
    tilt_buf := []
    angle_buf := [1.5]
    swipe_frames_left := 3
    swipe_frames_right := 0
    coast_dir := 0
    coast_frames := 0
    cooldowns := fun k => if k = Gesture.pan_left then some 100 else none }

/-- Concrete pre-state for the third counterexample: a leftover
single-hand palm sample from the previous frame. -/
def c7St : GestureRecognizer := { init_state with palm_buf := [⟨0.5, 0.5⟩] }

/-- First hand of the third counterexample: palm center out of the zone
on the low side. -/
def c7HandA : Hand := ⟨⟨0.1, 0.1⟩, ⟨0.1, 0.1⟩, ⟨0.1, 0.1⟩⟩

/-- Second hand of the third counterexample: palm center out of the zone
on the high side. -/
def c7HandB : Hand := ⟨⟨0.9, 0.9⟩, ⟨0.9, 0.9⟩, ⟨0.9, 0.9⟩⟩

/-- Frame observation for the third counterexample: two hands, neither
inside the activation zone. -/
def c7Hd : HandData := ⟨true, 2, [c7HandA, c7HandB]⟩

/-- First hand of the magnitude witness (wrist and middle_mcp coincide,
so no tilt sample is produced). -/
def w8HandA : Hand := ⟨⟨0.5, 0.5⟩, ⟨0.5, 0.5⟩, ⟨0.2, 0.2⟩⟩

/-- Second hand of the magnitude witness: the palm centers are 0.5
apart (a 3-4-5 triangle scaled by 0.1). -/
def w8HandB : Hand := ⟨⟨0.5, 0.5⟩, ⟨0.5, 0.5⟩, ⟨0.5, 0.6⟩⟩

/-- Pre-state for the magnitude witness: one buffered inter-hand
distance of 0.3, so the new 0.5 sample yields a window rate of 0.2. -/
def w8St : GestureRecognizer := { init_state with dist_buf := [0.3] }

/-- Frame observation for the magnitude witness. -/
def w8Hd : HandData := ⟨true, 2, [w8HandA, w8HandB]⟩

lemma can_emit_congr {s t : GestureRecognizer} (now : ℝ) (g : Gesture)
    (h : s.cooldowns = t.cooldowns) : can_emit s now g ↔ can_emit t now g := by
  simp [can_emit, h]

lemma cooldown_step_congr {s t : GestureRecognizer} {now : ℝ}
    {r : GestureRecognizer × Option Event} (h : s.cooldowns = t.cooldowns) :
    cooldown_step s now r → cooldown_step t now r := by
  unfold cooldown_step
  cases hr : r.2 with
  | none => intro hs; rwa [h] at hs
  | some e =>
      rintro ⟨h1, h2⟩
      rw [h] at h2
      exact ⟨(can_emit_congr now e.gesture h).mp h1, h2⟩

lemma gate_step {st : GestureRecognizer} (s : GestureRecognizer) (now : ℝ)
    (g : Gesture) (m : ℝ) (h : s.cooldowns = st.cooldowns) :
    cooldown_step st now
      (if can_emit s now g then (record_emit s now g, some ⟨g, m⟩)
       else (s, none)) := by
  split_ifs with hc
  · exact ⟨(can_emit_congr now g h).mp hc, by simp [record_emit, h]⟩
  · simpa [cooldown_step] using h

lemma gate_step_state {st : GestureRecognizer} (s : GestureRecognizer)
    (now : ℝ) (g : Gesture) (m : ℝ) (x : RState)
    (h : s.cooldowns = st.cooldowns) :
    cooldown_step st now
      (if can_emit s now g then
        ({ record_emit s now g with state := x }, some ⟨g, m⟩)
       else (s, none)) := by
  split_ifs with hc
  · exact ⟨(can_emit_congr now g h).mp hc, by simp [record_emit, h]⟩
  · simpa [cooldown_step] using h

lemma swipe_confirm_step (now : ℝ) (s : GestureRecognizer) (v : ℝ) :
    cooldown_step s now (swipe_confirm now s v) := by
  unfold swipe_confirm
  by_cases h1 : SWIPE_MIN_FRAMES ≤ s.swipe_frames_left
  · rw [if_pos h1]
    exact gate_step_state s now .pan_left (round3 |v|) .swipe_left rfl
  · rw [if_neg h1]
    by_cases h2 : SWIPE_MIN_FRAMES ≤ s.swipe_frames_right
    · rw [if_pos h2]
      exact gate_step_state s now .pan_right (round3 |v|) .swipe_right rfl
    · rw [if_neg h2]
      simp [cooldown_step]

lemma eval_swipe_step (now : ℝ) (st : GestureRecognizer) (v : ℝ) :
    cooldown_step st now (eval_swipe now st v) := by
  unfold eval_swipe
  split_ifs with h1 h2
  · exact cooldown_step_congr rfl (swipe_confirm_step now _ v)
  · exact cooldown_step_congr rfl (swipe_confirm_step now _ v)
  · simp [cooldown_step]

lemma bearing_decide_step (now : ℝ) (st : GestureRecognizer) :
    cooldown_step st now (bearing_decide now st) := by
  unfold bearing_decide
  by_cases h1 : st.angle_buf.length < 2
  · simp [h1, cooldown_step]
  · rw [if_neg h1]
    by_cases h2 : |total_delta st.angle_buf| < BEARING_ANGLE_RATE_MIN
    · simp [h2, cooldown_step]
    · simp only [if_neg h2]
      exact gate_step _ now _ _ rfl

lemma eval_two_hand_pitch_step (now : ℝ) (st : GestureRecognizer) :
    cooldown_step st now (eval_two_hand_pitch now st) := by
  unfold eval_two_hand_pitch
  by_cases h1 : st.tilt_buf.length < 2
  · simp [h1, cooldown_step]
  · rw [if_neg h1]
    by_cases h2 : |st.tilt_buf.getLastD 0 - st.tilt_buf.headD 0| < PITCH_TILT_RATE_MIN
    · rw [if_pos h2]
      simp [cooldown_step]
    · rw [if_neg h2]
      exact gate_step _ now _ _ rfl

lemma two_hand_decide_step (now : ℝ) (st : GestureRecognizer) :
    cooldown_step st now (two_hand_decide now st) := by
  unfold two_hand_decide
  by_cases h1 : st.dist_buf.length < 2
  · simp [h1, cooldown_step]
  · rw [if_neg h1]
    by_cases h2 : ZOOM_DIST_RATE_MIN ≤ |st.dist_buf.getLastD 0 - st.dist_buf.headD 0|
    · rw [if_pos h2]
      exact gate_step _ now _ _ rfl
    · rw [if_neg h2]
      exact eval_two_hand_pitch_step now st

lemma two_hand_append_cooldowns (st : GestureRecognizer) (ha hb : Hand) :
    (two_hand_append st ha hb).cooldowns = st.cooldowns := by
  unfold two_hand_append
  cases hand_norm_dy ha <;> cases hand_norm_dy hb <;> rfl

lemma eval_bearing_step (now : ℝ) (st : GestureRecognizer) (h : Hand) :
    cooldown_step st now (eval_bearing now st h) := by
  unfold eval_bearing
  dsimp only
  split_ifs with h1
  · simp [cooldown_step]
  · exact cooldown_step_congr rfl (bearing_decide_step now _)

lemma eval_two_hand_step (now : ℝ) (st : GestureRecognizer) (ha hb : Hand) :
    cooldown_step st now (eval_two_hand now st ha hb) := by
  unfold eval_two_hand
  dsimp only
  split_ifs with h1
  · simp [cooldown_step]
  · exact cooldown_step_congr
      (show (two_hand_append
          { st with
            palm_buf := []
            angle_buf := []
            swipe_frames_left := 0
            swipe_frames_right := 0 } ha hb).cooldowns = st.cooldowns
        from two_hand_append_cooldowns _ ha hb)
      (two_hand_decide_step now _)

lemma swipe_route_step (st st1 : GestureRecognizer) (now v : ℝ) (hh : Hand)
    (hc : st1.cooldowns = st.cooldowns) :
    cooldown_step st now
      (if (eval_swipe now st1 v).2.isSome then
        ({ (eval_swipe now st1 v).1 with angle_buf := [] },
          (eval_swipe now st1 v).2)
       else eval_bearing now (eval_swipe now st1 v).1 hh) := by
  have hstep := eval_swipe_step now st1 v
  split_ifs with h3
  · obtain ⟨e, he⟩ := Option.isSome_iff_exists.mp h3
    unfold cooldown_step at hstep ⊢
    dsimp only
    rw [he] at hstep ⊢
    exact ⟨(can_emit_congr now e.gesture hc).mp hstep.1,
      by rw [hstep.2, hc]⟩
  · have hb : (eval_swipe now st1 v).2 = none :=
      Option.not_isSome_iff_eq_none.mp h3
    have h4 : (eval_swipe now st1 v).1.cooldowns = st1.cooldowns := by
      unfold cooldown_step at hstep
      rw [hb] at hstep
      exact hstep
    exact cooldown_step_congr (h4.trans hc) (eval_bearing_step now _ hh)

lemma eval_single_hand_step (now : ℝ) (st : GestureRecognizer) (h : Hand) :
    cooldown_step st now (eval_single_hand now st h) := by
  unfold eval_single_hand
  dsimp only
  by_cases h1 : ¬ in_activation_zone h.palm_center
  · rw [if_pos h1]
    simp [cooldown_step, reset_buffers]
  · rw [if_neg h1]
    by_cases h2 : (dqAppend SMOOTHING_WINDOW st.palm_buf h.palm_center).length < 2
    · rw [if_pos h2]
      simp [cooldown_step]
    · rw [if_neg h2]
      exact swipe_route_step st _ now _ h rfl

lemma update_step (now : ℝ) (st : GestureRecognizer) (hd : HandData) :
    cooldown_step st now (update now st hd) := by
  unfold update
  split_ifs with h1 h2 h3
  · simp [cooldown_step, reset_buffers]
  · exact eval_two_hand_step now st _ _
  · exact eval_single_hand_step now st _
  · simp [cooldown_step, reset_buffers]

lemma update_emit (now : ℝ) (st : GestureRecognizer) (hd : HandData)
    (e : Event) (h : (update now st hd).2 = some e) :
    can_emit st now e.gesture ∧
      (update now st hd).1.cooldowns e.gesture = some now := by
  have hs := update_step now st hd
  unfold cooldown_step at hs
  rw [h] at hs
  exact ⟨hs.1, by rw [hs.2]; simp⟩

lemma update_cooldowns_other (now : ℝ) (st : GestureRecognizer)
    (hd : HandData) (k : Gesture)
    (h : ∀ e, (update now st hd).2 = some e → e.gesture ≠ k) :
    (update now st hd).1.cooldowns k = st.cooldowns k := by
  have hs := update_step now st hd
  unfold cooldown_step at hs
  cases he : (update now st hd).2 with
  | none => rw [he] at hs; rw [hs]
  | some e =>
      rw [he] at hs
      obtain ⟨h1, h2⟩ := hs
      rw [h2]
      exact if_neg (fun hk => (h e he) hk.symm)

lemma run_cooldowns_none (k : Gesture) (frames : List (ℝ × HandData)) :
    ∀ st : GestureRecognizer, st.cooldowns k = none →
      (∀ p ∈ emissions st frames, p.2.gesture ≠ k) →
      (run st frames).cooldowns k = none := by
  induction frames with
  | nil => intro st h0 _; simpa [run] using h0
  | cons f rest ih =>
      obtain ⟨t, hd⟩ := f
      intro st h0 hall
      rw [run]
      have hne : ∀ e, (update t st hd).2 = some e → e.gesture ≠ k := by
        intro e he
        apply hall (t, e)
        rw [emissions, he]
        simp
      refine ih (update t st hd).1 ?_ ?_
      · rw [update_cooldowns_other t st hd k hne]
        exact h0
      · intro p hp
        exact hall p (by rw [emissions]; exact List.mem_append_right _ hp)

lemma emissions_chain (k : Gesture) (frames : List (ℝ × HandData)) :
    ∀ st : GestureRecognizer,
      List.Chain (fun t1 t2 => cooldown_ms k ≤ (t2 - t1) * 1000)
        ((st.cooldowns k).getD 0)
        (((emissions st frames).filter fun p => p.2.gesture = k).map
          Prod.fst) := by
  induction frames with
  | nil => intro st; simp [emissions]
  | cons f rest ih =>
      obtain ⟨t, hd⟩ := f
      intro st
      rw [emissions]
      cases he : (update t st hd).2 with
      | none =>
          have hco := update_cooldowns_other t st hd k
            (by intro e h'; rw [he] at h'; exact absurd h' (by simp))
          have := ih (update t st hd).1
          rw [hco] at this
          simpa using this
      | some e =>
          have hem := update_emit t st hd e he
          by_cases hk : e.gesture = k
          · have hbase : (update t st hd).1.cooldowns k = some t := by
              rw [← hk]; exact hem.2
            have htail := ih (update t st hd).1
            rw [hbase] at htail
            have hhead : cooldown_ms k ≤
                (t - (st.cooldowns k).getD 0) * 1000 := by
              have := hem.1
              unfold can_emit at this
              rwa [hk] at this
            rw [Option.getD_some] at htail
            simp [hk, List.chain_cons, hhead]
            exact htail
          · have hco := update_cooldowns_other t st hd k
              (by intro e' h'; rw [he] at h'; cases h'; exact hk)
            have := ih (update t st hd).1
            rw [hco] at this
            simpa [hk] using this

lemma update_not_detected (now : ℝ) (st : GestureRecognizer) (hd : HandData)
    (h : hd.detected = false) :
    update now st hd = ({ reset_buffers st with state := RState.idle }, none) := by
  unfold update
  rw [if_pos h]

lemma update_zero_hands (now : ℝ) (st : GestureRecognizer) (hd : HandData)
    (h1 : hd.detected = true) (h0 : hd.hand_count = 0) :
    update now st hd = ({ reset_buffers st with state := RState.idle }, none) := by
  unfold update
  rw [if_neg (by simp [h1]), if_neg (by omega), if_neg (by omega)]

lemma update_two_hands (now : ℝ) (st : GestureRecognizer) (hd : HandData)
    (h1 : hd.detected = true) (hc : 2 ≤ hd.hand_count) :
    update now st hd = eval_two_hand now st
      (hd.hands.getD 0 ⟨⟨0, 0⟩, ⟨0, 0⟩, ⟨0, 0⟩⟩)
      (hd.hands.getD 1 ⟨⟨0, 0⟩, ⟨0, 0⟩, ⟨0, 0⟩⟩) := by
  unfold update
  rw [if_neg (by simp [h1]), if_pos hc]

lemma update_one_hand (now : ℝ) (st : GestureRecognizer) (hd : HandData)
    (h1 : hd.detected = true) (hc : hd.hand_count = 1) :
    update now st hd = eval_single_hand now st
      (hd.hands.getD 0 ⟨⟨0, 0⟩, ⟨0, 0⟩, ⟨0, 0⟩⟩) := by
  unfold update
  rw [if_neg (by simp [h1]), if_neg (by omega), if_pos hc]

lemma eval_two_hand_outzone (now : ℝ) (st : GestureRecognizer) (ha hb : Hand)
    (hA : ¬ in_activation_zone ha.palm_center)
    (hB : ¬ in_activation_zone hb.palm_center) :
    eval_two_hand now st ha hb =
      ({ st with
          dist_buf := []
          palm_buf := []
          tilt_buf := []
          angle_buf := []
          swipe_frames_left := 0
          swipe_frames_right := 0 }, none) := by
  unfold eval_two_hand
  dsimp only
  rw [if_pos ⟨hA, hB⟩]

lemma eval_two_hand_inzone (now : ℝ) (st : GestureRecognizer) (ha hb : Hand)
    (h : ¬ (¬ in_activation_zone ha.palm_center ∧
            ¬ in_activation_zone hb.palm_center)) :
    eval_two_hand now st ha hb = two_hand_decide now
      (two_hand_append
        { st with
          palm_buf := []
          angle_buf := []
          swipe_frames_left := 0
          swipe_frames_right := 0 } ha hb) := by
  unfold eval_two_hand
  dsimp only
  rw [if_neg h]

lemma two_hand_decide_short (now : ℝ) (st : GestureRecognizer)
    (h2 : st.dist_buf.length < 2) :
    two_hand_decide now st = (st, none) := by
  unfold two_hand_decide
  rw [if_pos h2]

lemma two_hand_decide_zoom (now : ℝ) (st : GestureRecognizer)
    (h2 : ¬ st.dist_buf.length < 2)
    (hz : ZOOM_DIST_RATE_MIN ≤ |st.dist_buf.getLastD 0 - st.dist_buf.headD 0|) :
    two_hand_decide now st =
      (if can_emit { st with state := RState.zoom } now
           (if 0 < st.dist_buf.getLastD 0 - st.dist_buf.headD 0 then
             Gesture.zoom_out else Gesture.zoom_in) then
        (record_emit { st with state := RState.zoom } now
           (if 0 < st.dist_buf.getLastD 0 - st.dist_buf.headD 0 then
             Gesture.zoom_out else Gesture.zoom_in),
         some ⟨(if 0 < st.dist_buf.getLastD 0 - st.dist_buf.headD 0 then
             Gesture.zoom_out else Gesture.zoom_in),
           round3 (min (|st.dist_buf.getLastD 0 - st.dist_buf.headD 0| / 0.3) 1)⟩)
       else ({ st with state := RState.zoom }, none)) := by
  unfold two_hand_decide
  dsimp only
  rw [if_neg h2, if_pos hz]

lemma two_hand_decide_to_pitch (now : ℝ) (st : GestureRecognizer)
    (h2 : ¬ st.dist_buf.length < 2)
    (hz : ¬ ZOOM_DIST_RATE_MIN ≤
      |st.dist_buf.getLastD 0 - st.dist_buf.headD 0|) :
    two_hand_decide now st = eval_two_hand_pitch now st := by
  unfold two_hand_decide
  dsimp only
  rw [if_neg h2, if_neg hz]

lemma eval_two_hand_pitch_short (now : ℝ) (st : GestureRecognizer)
    (h2 : st.tilt_buf.length < 2) :
    eval_two_hand_pitch now st = (st, none) := by
  unfold eval_two_hand_pitch
  rw [if_pos h2]

lemma eval_two_hand_pitch_small (now : ℝ) (st : GestureRecognizer)
    (h2 : ¬ st.tilt_buf.length < 2)
    (ht : |st.tilt_buf.getLastD 0 - st.tilt_buf.headD 0| <
      PITCH_TILT_RATE_MIN) :
    eval_two_hand_pitch now st = (st, none) := by
  unfold eval_two_hand_pitch
  dsimp only
  rw [if_neg h2, if_pos ht]

lemma eval_two_hand_pitch_up (now : ℝ) (st : GestureRecognizer)
    (h2 : ¬ st.tilt_buf.length < 2)
    (ht : ¬ |st.tilt_buf.getLastD 0 - st.tilt_buf.headD 0| <
      PITCH_TILT_RATE_MIN)
    (hneg : st.tilt_buf.getLastD 0 - st.tilt_buf.headD 0 < 0) :
    eval_two_hand_pitch now st =
      (if can_emit { st with state := RState.pitch_up } now Gesture.pitch_up then
        (record_emit { st with state := RState.pitch_up } now Gesture.pitch_up,
         some ⟨Gesture.pitch_up,
           round3 (min (|st.tilt_buf.getLastD 0 - st.tilt_buf.headD 0| / 0.3) 1)⟩)
       else ({ st with state := RState.pitch_up }, none)) := by
  unfold eval_two_hand_pitch
  dsimp only
  rw [if_neg h2, if_neg ht, if_pos hneg]
  simp

lemma eval_two_hand_pitch_down (now : ℝ) (st : GestureRecognizer)
    (h2 : ¬ st.tilt_buf.length < 2)
    (ht : ¬ |st.tilt_buf.getLastD 0 - st.tilt_buf.headD 0| <
      PITCH_TILT_RATE_MIN)
    (hpos : ¬ st.tilt_buf.getLastD 0 - st.tilt_buf.headD 0 < 0) :
    eval_two_hand_pitch now st =
      (if can_emit { st with state := RState.pitch_down } now
           Gesture.pitch_down then
        (record_emit { st with state := RState.pitch_down } now
           Gesture.pitch_down,
         some ⟨Gesture.pitch_down,
           round3 (min (|st.tilt_buf.getLastD 0 - st.tilt_buf.headD 0| / 0.3) 1)⟩)
       else ({ st with state := RState.pitch_down }, none)) := by
  unfold eval_two_hand_pitch
  dsimp only
  rw [if_neg h2, if_neg ht, if_neg hpos]
  simp

lemma bearing_decide_short (now : ℝ) (st : GestureRecognizer)
    (h2 : st.angle_buf.length < 2) :
    bearing_decide now st = (st, none) := by
  unfold bearing_decide
  rw [if_pos h2]

lemma bearing_decide_small (now : ℝ) (st : GestureRecognizer)
    (h2 : ¬ st.angle_buf.length < 2)
    (hs : |total_delta st.angle_buf| < BEARING_ANGLE_RATE_MIN) :
    bearing_decide now st = (st, none) := by
  unfold bearing_decide
  dsimp only
  rw [if_neg h2, if_pos hs]

lemma bearing_decide_cw (now : ℝ) (st : GestureRecognizer)
    (h2 : ¬ st.angle_buf.length < 2)
    (hs : ¬ |total_delta st.angle_buf| < BEARING_ANGLE_RATE_MIN)
    (hpos : 0 < total_delta st.angle_buf) :
    bearing_decide now st =
      (if can_emit { st with state := RState.bearing_cw } now
           Gesture.bearing_cw then
        (record_emit { st with state := RState.bearing_cw } now
           Gesture.bearing_cw,
         some ⟨Gesture.bearing_cw,
           round3 (min (|total_delta st.angle_buf| / (Real.pi / 3)) 1)⟩)
       else ({ st with state := RState.bearing_cw }, none)) := by
  unfold bearing_decide
  dsimp only
  rw [if_neg h2, if_neg hs, if_pos hpos]
  simp

lemma bearing_decide_ccw (now : ℝ) (st : GestureRecognizer)
    (h2 : ¬ st.angle_buf.length < 2)
    (hs : ¬ |total_delta st.angle_buf| < BEARING_ANGLE_RATE_MIN)
    (hneg : ¬ 0 < total_delta st.angle_buf) :
    bearing_decide now st =
      (if can_emit { st with state := RState.bearing_ccw } now
           Gesture.bearing_ccw then
        (record_emit { st with state := RState.bearing_ccw } now
           Gesture.bearing_ccw,
         some ⟨Gesture.bearing_ccw,
           round3 (min (|total_delta st.angle_buf| / (Real.pi / 3)) 1)⟩)
       else ({ st with state := RState.bearing_ccw }, none)) := by
  unfold bearing_decide
  dsimp only
  rw [if_neg h2, if_neg hs, if_neg hneg]
  simp

lemma eval_bearing_degenerate (now : ℝ) (st : GestureRecognizer) (h : Hand)
    (hl : Real.sqrt ((h.middle_mcp.x - h.wrist.x) ^ 2 +
      (h.middle_mcp.y - h.wrist.y) ^ 2) < 0.01) :
    eval_bearing now st h = (st, none) := by
  unfold eval_bearing
  dsimp only
  rw [if_pos hl]

lemma eval_bearing_append (now : ℝ) (st : GestureRecognizer) (h : Hand)
    (hl : ¬ Real.sqrt ((h.middle_mcp.x - h.wrist.x) ^ 2 +
      (h.middle_mcp.y - h.wrist.y) ^ 2) < 0.01) :
    eval_bearing now st h = bearing_decide now
      { st with angle_buf := dqAppend SMOOTHING_WINDOW st.angle_buf (atan2 (h.middle_mcp.y - h.wrist.y) (h.middle_mcp.x - h.wrist.x)) } := by
  unfold eval_bearing
  dsimp only
  rw [if_neg hl]

lemma eval_swipe_dead (now : ℝ) (st : GestureRecognizer) (v : ℝ)
    (hv1 : ¬ v < -SWIPE_VELOCITY_THRESHOLD)
    (hv2 : ¬ SWIPE_VELOCITY_THRESHOLD < v) :
    eval_swipe now st v =
      ({ st with swipe_frames_left := 0, swipe_frames_right := 0 }, none) := by
  unfold eval_swipe
  rw [if_neg hv1, if_neg hv2]

lemma eval_swipe_left (now : ℝ) (st : GestureRecognizer) (v : ℝ)
    (hv : v < -SWIPE_VELOCITY_THRESHOLD) :
    eval_swipe now st v = swipe_confirm now
      { st with
        swipe_frames_left := st.swipe_frames_left + 1
        swipe_frames_right := 0 } v := by
  unfold eval_swipe
  rw [if_pos hv]

lemma eval_swipe_right (now : ℝ) (st : GestureRecognizer) (v : ℝ)
    (hv1 : ¬ v < -SWIPE_VELOCITY_THRESHOLD)
    (hv : SWIPE_VELOCITY_THRESHOLD < v) :
    eval_swipe now st v = swipe_confirm now
      { st with
        swipe_frames_right := st.swipe_frames_right + 1
        swipe_frames_left := 0 } v := by
  unfold eval_swipe
  rw [if_neg hv1, if_pos hv]

lemma swipe_confirm_left (now : ℝ) (s : GestureRecognizer) (v : ℝ)
    (hl : SWIPE_MIN_FRAMES ≤ s.swipe_frames_left) :
    swipe_confirm now s v =
      (if can_emit s now Gesture.pan_left then
        ({ record_emit s now Gesture.pan_left with state := RState.swipe_left },
          some ⟨Gesture.pan_left, round3 |v|⟩)
       else (s, none)) := by
  unfold swipe_confirm
  rw [if_pos hl]

lemma swipe_confirm_right (now : ℝ) (s : GestureRecognizer) (v : ℝ)
    (hl : ¬ SWIPE_MIN_FRAMES ≤ s.swipe_frames_left)
    (hr : SWIPE_MIN_FRAMES ≤ s.swipe_frames_right) :
    swipe_confirm now s v =
      (if can_emit s now Gesture.pan_right then
        ({ record_emit s now Gesture.pan_right with state := RState.swipe_right },
          some ⟨Gesture.pan_right, round3 |v|⟩)
       else (s, none)) := by
  unfold swipe_confirm
  rw [if_neg hl, if_pos hr]

lemma swipe_confirm_none (now : ℝ) (s : GestureRecognizer) (v : ℝ)
    (hl : ¬ SWIPE_MIN_FRAMES ≤ s.swipe_frames_left)
    (hr : ¬ SWIPE_MIN_FRAMES ≤ s.swipe_frames_right) :
    swipe_confirm now s v = (s, none) := by
  unfold swipe_confirm
  rw [if_neg hl, if_neg hr]

lemma eval_single_hand_outzone (now : ℝ) (st : GestureRecognizer) (h : Hand)
    (hz : ¬ in_activation_zone h.palm_center) :
    eval_single_hand now st h =
      ({ reset_buffers st with state := RState.idle }, none) := by
  unfold eval_single_hand reset_buffers
  dsimp only
  rw [if_pos hz]

lemma eval_single_hand_short (now : ℝ) (st : GestureRecognizer) (h : Hand)
    (hz : in_activation_zone h.palm_center)
    (hlen : (dqAppend SMOOTHING_WINDOW st.palm_buf h.palm_center).length < 2) :
    eval_single_hand now st h =
      ({ st with
          dist_buf := []
          tilt_buf := []
          palm_buf := dqAppend SMOOTHING_WINDOW st.palm_buf h.palm_center },
        none) := by
  unfold eval_single_hand
  dsimp only
  rw [if_neg (not_not_intro hz), if_pos hlen]

lemma eval_single_hand_route (now : ℝ) (st : GestureRecognizer) (h : Hand)
    (hz : in_activation_zone h.palm_center)
    (hlen : ¬ (dqAppend SMOOTHING_WINDOW st.palm_buf h.palm_center).length < 2) :
    eval_single_hand now st h =
      (let st1 : GestureRecognizer :=
        { st with
          dist_buf := []
          tilt_buf := []
          palm_buf := dqAppend SMOOTHING_WINDOW st.palm_buf h.palm_center }
       let v := ((dqAppend SMOOTHING_WINDOW st.palm_buf h.palm_center).getLastD
          ⟨0, 0⟩).x -
        ((dqAppend SMOOTHING_WINDOW st.palm_buf h.palm_center).headD ⟨0, 0⟩).x
       if (eval_swipe now st1 v).2.isSome then
        ({ (eval_swipe now st1 v).1 with angle_buf := [] },
          (eval_swipe now st1 v).2)
       else eval_bearing now (eval_swipe now st1 v).1 h) := by
  unfold eval_single_hand
  dsimp only
  rw [if_neg (not_not_intro hz), if_neg hlen]

lemma unwrap_delta_of_between {d : ℝ} (h1 : ¬ Real.pi < d)
    (h2 : ¬ d < -Real.pi) : unwrap_delta d = d := by
  unfold unwrap_delta
  rw [if_neg h1, if_neg h2]

lemma unwrap_delta_of_low {d : ℝ} (h2 : d < -Real.pi) :
    unwrap_delta d = d + 2 * Real.pi := by
  have hpi := Real.pi_pos
  unfold unwrap_delta
  rw [if_neg (by linarith), if_pos h2]

lemma total_delta_eq_sum (buf : List ℝ) :
    total_delta buf =
      (List.zipWith (fun a b => unwrap_delta (b - a)) buf buf.tail).sum := by
  induction buf with
  | nil => simp [total_delta]
  | cons a l ih =>
      cases l with
      | nil => simp [total_delta]
      | cons b rest =>
          rw [total_delta, ih]
          simp

lemma total_delta_example :
    total_delta [(3.0 : ℝ), 3.1, -3.1, -3.0] = 2 * Real.pi - 6 := by
  have hpi3 : (3 : ℝ) < Real.pi := Real.pi_gt_three
  have hpi4 : Real.pi < 4 := Real.pi_lt_four
  have h1 : unwrap_delta ((3.1 : ℝ) - 3.0) = 0.1 := by
    rw [show ((3.1 : ℝ) - 3.0) = 0.1 by norm_num]
    exact unwrap_delta_of_between (by linarith) (by linarith)
  have h2 : unwrap_delta ((-3.1 : ℝ) - 3.1) = -6.2 + 2 * Real.pi := by
    rw [show ((-3.1 : ℝ) - 3.1) = -6.2 by norm_num]
    rw [unwrap_delta_of_low (by linarith)]
  have h3 : unwrap_delta ((-3.0 : ℝ) - -3.1) = 0.1 := by
    rw [show ((-3.0 : ℝ) - -3.1) = 0.1 by norm_num]
    exact unwrap_delta_of_between (by linarith) (by linarith)
  simp only [total_delta]
  rw [h1, h2, h3]
  ring

/-- Claim C5: the net rotation of the bearing window is the sum, over
consecutive pairs of buffered atan2 angles, of the raw delta corrected by
minus 2 pi past pi and plus 2 pi below minus pi; on the boundary-crossing
sequence 3.0, 3.1, -3.1, -3.0 rad the total is 0.1 + (2 pi - 6.2) + 0.1,
within 0.001 of 0.283 rad rather than a spurious value near 6.2. -/
theorem claim5_angle_unwrap :
    (∀ buf : List ℝ, total_delta buf =
      (List.zipWith (fun a b => unwrap_delta (b - a)) buf buf.tail).sum) ∧
    total_delta [(3.0 : ℝ), 3.1, -3.1, -3.0] =
      0.1 + (2 * Real.pi - 6.2) + 0.1 ∧
    |total_delta [(3.0 : ℝ), 3.1, -3.1, -3.0] - 0.283| < 0.001 := by
  refine ⟨total_delta_eq_sum, ?_, ?_⟩
  · rw [total_delta_example]; ring
  · rw [total_delta_example]
    have hlo : (3.1415 : ℝ) < Real.pi := Real.pi_gt_d4
    have hhi : Real.pi < 3.1416 := Real.pi_lt_d4
    rw [abs_lt]
    constructor <;> linarith

/-- Claim C9: a call with a truthy detected flag but hand_count 0 does not
index into the hands list; it performs the same full reset as the
no-detection path, sets the state to Idle and returns nothing — the result
coincides with that of the corresponding no-detection call. -/
theorem claim9_zero_hands (now : ℝ) (st : GestureRecognizer) (hd : HandData)
    (h1 : hd.detected = true) (h0 : hd.hand_count = 0) :
    update now st hd = ({ reset_buffers st with state := RState.idle }, none) ∧
    update now st hd = update now st { hd with detected := false } := by
  refine ⟨update_zero_hands now st hd h1 h0, ?_⟩
  rw [update_zero_hands now st hd h1 h0, update_not_detected now st _ rfl]

/-- Concrete instance of claim C9 at detected = true, hand_count = 0, an
empty hands list, and the freshly initialised recognizer. -/
theorem claim9_witness :
    update 0 init_state ⟨true, 0, []⟩ =
      ({ reset_buffers init_state with state := RState.idle }, none) ∧
    update 0 init_state ⟨true, 0, []⟩ =
      update 0 init_state { HandData.mk true 0 [] with detected := false } :=
  claim9_zero_hands 0 init_state ⟨true, 0, []⟩ rfl rfl

/-- Claim C10: a never-emitted kind has no cooldown entry (true initially
and preserved along any run without an emission of that kind), and the
gate reads a missing entry as timestamp 0.0, so it passes whenever the
clock is at least the category interval past the epoch. -/
theorem claim10_cooldown_default :
    (∀ k : Gesture, init_state.cooldowns k = none) ∧
    (∀ (k : Gesture) (frames : List (ℝ × HandData)),
      (∀ p ∈ emissions init_state frames, p.2.gesture ≠ k) →
      (run init_state frames).cooldowns k = none) ∧
    (∀ (st : GestureRecognizer) (now : ℝ) (k : Gesture),
      st.cooldowns k = none → cooldown_ms k ≤ now * 1000 →
      can_emit st now k) := by
  refine ⟨fun k => rfl, ?_, ?_⟩
  · intro k frames hall
    exact run_cooldowns_none k frames init_state rfl hall
  · intro st now k hnone hge
    unfold can_emit
    rw [hnone]
    simpa using hge

/-- Claim C6: a frame with detected false or hand_count 0 resets every
buffer, both swipe counters (and the vestigial coasting fields), forces
Idle and returns nothing; repeating such frames keeps returning nothing,
and the first single-hand in-zone frame after such a reset buffers one
sample and returns nothing since every decision needs two. -/
theorem claim6_idle_reset :
    (∀ st : GestureRecognizer, reset_buffers st =
      { st with
          dist_buf := []
          palm_buf := []
          tilt_buf := []
          angle_buf := []
          swipe_frames_left := 0
          swipe_frames_right := 0
          coast_dir := 0
          coast_frames := 0 }) ∧
    (∀ (now : ℝ) (st : GestureRecognizer) (hd : HandData),
      hd.detected = false ∨ hd.hand_count = 0 →
      update now st hd =
        ({ reset_buffers st with state := RState.idle }, none)) ∧
    (∀ (now now' : ℝ) (st : GestureRecognizer) (hd hd' : HandData),
      hd.detected = false ∨ hd.hand_count = 0 →
      hd'.detected = false ∨ hd'.hand_count = 0 →
      (update now' (update now st hd).1 hd').2 = none) ∧
    (∀ (now now' : ℝ) (st : GestureRecognizer) (hd hd' : HandData) (h : Hand),
      hd.detected = false ∨ hd.hand_count = 0 →
      hd'.detected = true → hd'.hand_count = 1 → hd'.hands = [h] →
      in_activation_zone h.palm_center →
      (update now' (update now st hd).1 hd').2 = none) := by
  have key : ∀ (now : ℝ) (st : GestureRecognizer) (hd : HandData),
      hd.detected = false ∨ hd.hand_count = 0 →
      update now st hd =
        ({ reset_buffers st with state := RState.idle }, none) := by
    intro now st hd hcase
    cases hdet : hd.detected with
    | false => exact update_not_detected now st hd hdet
    | true =>
        rcases hcase with hfalse | hzero
        · rw [hdet] at hfalse; exact absurd hfalse (by simp)
        · exact update_zero_hands now st hd hdet hzero
  refine ⟨fun st => rfl, key, ?_, ?_⟩
  · intro now now' st hd hd' hc hc'
    rw [key now' _ hd' hc']
  · intro now now' st hd hd' h hc hdet' hcount' hhands hz
    rw [key now st hd hc]
    rw [update_one_hand now' _ hd' hdet' hcount', hhands]
    have hgetD : ([h].getD 0 ⟨⟨0, 0⟩, ⟨0, 0⟩, ⟨0, 0⟩⟩) = h := rfl
    rw [hgetD]
    rw [eval_single_hand_short now' _ h hz
      (by simp [dqAppend, reset_buffers, SMOOTHING_WINDOW])]

/-- Counterexample to claim C7 as frozen: on a two-hand frame with neither
palm inside the zone, the single-hand palm buffer (nonempty before the
call) is cleared as well, so it is not true that only the two-hand buffers
are cleared. -/
theorem claim7_counterexample :
    (update 0 c7St c7Hd).2 = none ∧
    c7St.palm_buf ≠ [] ∧
    (update 0 c7St c7Hd).1.palm_buf = [] := by
  have hA : ¬ in_activation_zone c7HandA.palm_center := by
    simp [c7HandA, in_activation_zone, ACTIVATION_ZONE]
    norm_num
  have hB : ¬ in_activation_zone c7HandB.palm_center := by
    simp [c7HandB, in_activation_zone, ACTIVATION_ZONE]
    norm_num
  have hu : update 0 c7St c7Hd =
      ({ c7St with
          dist_buf := []
          palm_buf := []
          tilt_buf := []
          angle_buf := []
          swipe_frames_left := 0
          swipe_frames_right := 0 }, none) := by
    rw [update_two_hands 0 c7St c7Hd rfl (by norm_num [c7Hd])]
    have g0 : c7Hd.hands.getD 0 ⟨⟨0, 0⟩, ⟨0, 0⟩, ⟨0, 0⟩⟩ = c7HandA := rfl
    have g1 : c7Hd.hands.getD 1 ⟨⟨0, 0⟩, ⟨0, 0⟩, ⟨0, 0⟩⟩ = c7HandB := rfl
    rw [g0, g1]
    exact eval_two_hand_outzone 0 c7St c7HandA c7HandB hA hB
  rw [hu]
  refine ⟨rfl, ?_, rfl⟩
  simp [c7St]

/-- Claim C7 as amended: the zone test is inclusive at all four bounds; a
single-hand frame outside the zone performs the full reset, forces Idle,
returns nothing and leaves the cooldown table untouched; a two-hand frame
with neither palm inside the zone clears the two-hand buffers — and, as on
every two-hand frame, the single-hand buffers and swipe counters — returns
nothing, and leaves the state field (and cooldowns) unchanged. -/
theorem claim7_zone_gating_amended :
    (in_activation_zone ⟨0.2, 0.15⟩ ∧ in_activation_zone ⟨0.8, 0.85⟩ ∧
      ¬ in_activation_zone ⟨0.19, 0.15⟩) ∧
    (∀ (now : ℝ) (st : GestureRecognizer) (hd : HandData) (h : Hand),
      hd.detected = true → hd.hand_count = 1 → hd.hands = [h] →
      ¬ in_activation_zone h.palm_center →
      update now st hd =
        ({ reset_buffers st with state := RState.idle }, none)) ∧
    (∀ (now : ℝ) (st : GestureRecognizer) (hd : HandData) (ha hb : Hand),
      hd.detected = true → hd.hand_count = 2 → hd.hands = [ha, hb] →
      ¬ in_activation_zone ha.palm_center →
      ¬ in_activation_zone hb.palm_center →
      update now st hd =
        ({ st with
            dist_buf := []
            palm_buf := []
            tilt_buf := []
            angle_buf := []
            swipe_frames_left := 0
            swipe_frames_right := 0 }, none)) := by
  refine ⟨?_, ?_, ?_⟩
  · refine ⟨?_, ?_, ?_⟩ <;> simp [in_activation_zone, ACTIVATION_ZONE] <;> norm_num
  · intro now st hd h hdet hcount hhands hz
    rw [update_one_hand now st hd hdet hcount, hhands]
    exact eval_single_hand_outzone now st h hz
  · intro now st hd ha hb hdet hcount hhands hA hB
    rw [update_two_hands now st hd hdet (by omega), hhands]
    exact eval_two_hand_outzone now st ha hb hA hB

/-- Counterexample to claim C1 as frozen: a single-hand frame confirming a
pan_left swipe (counter reaches SWIPE_MIN_FRAMES) whose emission the
cooldown gate suppresses; the call returns nothing but the state field is
left at Idle instead of being set to the swipe state, because `_eval_swipe`
writes the state only after the gate passes. -/
theorem claim1_counterexample :
    (update 100 c1St c1Hd).2 = none ∧
    (update 100 c1St c1Hd).1.state = RState.idle ∧
    (update 100 c1St c1Hd).1.swipe_frames_left = SWIPE_MIN_FRAMES := by
  refine ⟨?_, ?_, ?_⟩ <;>
    norm_num [update, eval_single_hand, eval_swipe, swipe_confirm,
      eval_bearing, can_emit, cooldown_ms, record_emit, reset_buffers,
      in_activation_zone, ACTIVATION_ZONE, dqAppend, SMOOTHING_WINDOW,
      SWIPE_VELOCITY_THRESHOLD, SWIPE_MIN_FRAMES, GESTURE_COOLDOWN_MS,
      c1St, c1Hd, c1Hand, init_state]

/-- Claim C1 as amended: when the cooldown gate suppresses a classified
candidate, the call path returns nothing and the state field was already
written for the zoom, pitch and bearing families (the write precedes the
gate); for the swipe family the write follows the gate, so a suppressed
pan_left or pan_right confirmation leaves the state field unchanged. -/
theorem claim1_state_write_amended :
    (∀ (now : ℝ) (st : GestureRecognizer),
      ¬ st.dist_buf.length < 2 →
      ZOOM_DIST_RATE_MIN ≤ |st.dist_buf.getLastD 0 - st.dist_buf.headD 0| →
      ¬ can_emit { st with state := RState.zoom } now
        (if 0 < st.dist_buf.getLastD 0 - st.dist_buf.headD 0 then
          Gesture.zoom_out else Gesture.zoom_in) →
      two_hand_decide now st = ({ st with state := RState.zoom }, none)) ∧
    (∀ (now : ℝ) (st : GestureRecognizer),
      ¬ st.tilt_buf.length < 2 →
      ¬ |st.tilt_buf.getLastD 0 - st.tilt_buf.headD 0| < PITCH_TILT_RATE_MIN →
      st.tilt_buf.getLastD 0 - st.tilt_buf.headD 0 < 0 →
      ¬ can_emit { st with state := RState.pitch_up } now Gesture.pitch_up →
      eval_two_hand_pitch now st =
        ({ st with state := RState.pitch_up }, none)) ∧
    (∀ (now : ℝ) (st : GestureRecognizer),
      ¬ st.tilt_buf.length < 2 →
      ¬ |st.tilt_buf.getLastD 0 - st.tilt_buf.headD 0| < PITCH_TILT_RATE_MIN →
      ¬ st.tilt_buf.getLastD 0 - st.tilt_buf.headD 0 < 0 →
      ¬ can_emit { st with state := RState.pitch_down } now
        Gesture.pitch_down →
      eval_two_hand_pitch now st =
        ({ st with state := RState.pitch_down }, none)) ∧
    (∀ (now : ℝ) (st : GestureRecognizer),
      ¬ st.angle_buf.length < 2 →
      ¬ |total_delta st.angle_buf| < BEARING_ANGLE_RATE_MIN →
      0 < total_delta st.angle_buf →
      ¬ can_emit { st with state := RState.bearing_cw } now
        Gesture.bearing_cw →
      bearing_decide now st = ({ st with state := RState.bearing_cw }, none)) ∧
    (∀ (now : ℝ) (st : GestureRecognizer),
      ¬ st.angle_buf.length < 2 →
      ¬ |total_delta st.angle_buf| < BEARING_ANGLE_RATE_MIN →
      ¬ 0 < total_delta st.angle_buf →
      ¬ can_emit { st with state := RState.bearing_ccw } now
        Gesture.bearing_ccw →
      bearing_decide now st =
        ({ st with state := RState.bearing_ccw }, none)) ∧
    (∀ (now v : ℝ) (s : GestureRecognizer),
      SWIPE_MIN_FRAMES ≤ s.swipe_frames_left →
      ¬ can_emit s now Gesture.pan_left →
      swipe_confirm now s v = (s, none)) ∧
    (∀ (now v : ℝ) (s : GestureRecognizer),
      ¬ SWIPE_MIN_FRAMES ≤ s.swipe_frames_left →
      SWIPE_MIN_FRAMES ≤ s.swipe_frames_right →
      ¬ can_emit s now Gesture.pan_right →
      swipe_confirm now s v = (s, none)) := by
  refine ⟨?_, ?_, ?_, ?_, ?_, ?_, ?_⟩
  · intro now st h2 hz hc
    rw [two_hand_decide_zoom now st h2 hz, if_neg hc]
  · intro now st h2 ht hneg hc
    rw [eval_two_hand_pitch_up now st h2 ht hneg, if_neg hc]
  · intro now st h2 ht hpos hc
    rw [eval_two_hand_pitch_down now st h2 ht hpos, if_neg hc]
  · intro now st h2 hb hpos hc
    rw [bearing_decide_cw now st h2 hb hpos, if_neg hc]
  · intro now st h2 hb hneg hc
    rw [bearing_decide_ccw now st h2 hb hneg, if_neg hc]
  · intro now v s hl hc
    rw [swipe_confirm_left now s v hl, if_neg hc]
  · intro now v s hl hr hc
    rw [swipe_confirm_right now s v hl hr, if_neg hc]

/-- Counterexample to claim C2 as frozen: a single-hand frame whose
pan_left confirmation (counter at SWIPE_MIN_FRAMES) is suppressed by the
cooldown gate; the rotation-angle buffer is not cleared and bearing
detection runs on that very call — here it even emits a bearing_ccw
event. -/
theorem claim2_counterexample :
    (update 100 c2St c2Hd).1.swipe_frames_left = SWIPE_MIN_FRAMES ∧
    (update 100 c2St c2Hd).1.angle_buf ≠ [] ∧
    (update 100 c2St c2Hd).2 = some ⟨Gesture.bearing_ccw, 1⟩ := by
  have h1 : update 100 c2St c2Hd = eval_bearing 100 c2Mid c2Hand := by
    norm_num [update, eval_single_hand, eval_swipe, swipe_confirm, can_emit,
      cooldown_ms, GESTURE_COOLDOWN_MS, SWIPE_VELOCITY_THRESHOLD,
      SWIPE_MIN_FRAMES, dqAppend, SMOOTHING_WINDOW, in_activation_zone,
      ACTIVATION_ZONE, c2St, c2Hd, c2Hand, c2Mid, init_state]
  have hsq : Real.sqrt ((c2Hand.middle_mcp.x - c2Hand.wrist.x) ^ 2 +
      (c2Hand.middle_mcp.y - c2Hand.wrist.y) ^ 2) = 0.1 := by
    have hin : ((c2Hand.middle_mcp.x - c2Hand.wrist.x) ^ 2 +
        (c2Hand.middle_mcp.y - c2Hand.wrist.y) ^ 2 : ℝ) = 0.1 ^ 2 := by
      simp [c2Hand]
      norm_num
    rw [hin, Real.sqrt_sq (by norm_num)]
  have hl : ¬ Real.sqrt ((c2Hand.middle_mcp.x - c2Hand.wrist.x) ^ 2 +
      (c2Hand.middle_mcp.y - c2Hand.wrist.y) ^ 2) < 0.01 := by
    rw [hsq]
    norm_num
  have hat : atan2 (c2Hand.middle_mcp.y - c2Hand.wrist.y)
      (c2Hand.middle_mcp.x - c2Hand.wrist.x) = 0 := by
    unfold atan2
    rw [if_pos (show (0 : ℝ) < c2Hand.middle_mcp.x - c2Hand.wrist.x by
      simp [c2Hand]; norm_num)]
    have : (c2Hand.middle_mcp.y - c2Hand.wrist.y : ℝ) = 0 := by
      simp [c2Hand]
    rw [this, zero_div, Real.arctan_zero]
  have hdq : dqAppend SMOOTHING_WINDOW c2Mid.angle_buf (0 : ℝ) = [1.5, 0] := by
    simp [c2Mid, dqAppend, SMOOTHING_WINDOW]
  have htd : total_delta [(1.5 : ℝ), 0] = -1.5 := by
    have hpi3 : (3 : ℝ) < Real.pi := Real.pi_gt_three
    simp only [total_delta]
    rw [show ((0 : ℝ) - 1.5) = -1.5 by norm_num]
    rw [unwrap_delta_of_between (by linarith) (by linarith)]
    ring
  have h2 : eval_bearing 100 c2Mid c2Hand = bearing_decide 100
      { c2Mid with angle_buf := [1.5, 0] } := by
    rw [eval_bearing_append 100 c2Mid c2Hand hl, hat, hdq]
  have hbig : ¬ |total_delta ({ c2Mid with angle_buf := [(1.5 : ℝ), 0]}).angle_buf| <
      BEARING_ANGLE_RATE_MIN := by
    show ¬ |total_delta [(1.5 : ℝ), 0]| < _
    rw [htd, abs_of_neg (by norm_num : (-1.5 : ℝ) < 0)]
    norm_num [BEARING_ANGLE_RATE_MIN]
  have hneg : ¬ (0 : ℝ) < total_delta ({ c2Mid with angle_buf := [(1.5 : ℝ), 0]}).angle_buf := by
    show ¬ (0 : ℝ) < total_delta [(1.5 : ℝ), 0]
    rw [htd]
    norm_num
  have h3 := bearing_decide_ccw 100 { c2Mid with angle_buf := [(1.5 : ℝ), 0] }
    (by show ¬ ([(1.5 : ℝ), 0]).length < 2; norm_num) hbig hneg
  have hce : can_emit { { c2Mid with angle_buf := [(1.5 : ℝ), 0] } with
      state := RState.bearing_ccw } 100 Gesture.bearing_ccw := by
    norm_num [can_emit, cooldown_ms, BEARING_COOLDOWN_MS, c2Mid,
      show Gesture.bearing_ccw ≠ Gesture.pan_left from fun hcon => by cases hcon]
  rw [if_pos hce] at h3
  have hmag : round3 (min (|total_delta ({ c2Mid with
      angle_buf := [(1.5 : ℝ), 0] }).angle_buf| / (Real.pi / 3)) 1) = 1 := by
    have habs : |total_delta ({ c2Mid with
        angle_buf := [(1.5 : ℝ), 0] }).angle_buf| = 1.5 := by
      show |total_delta [(1.5 : ℝ), 0]| = 1.5
      rw [htd]
      rw [abs_of_neg (by norm_num : (-1.5 : ℝ) < 0)]
      norm_num
    rw [habs]
    have hpi4 : Real.pi < 4 := Real.pi_lt_four
    have hpos : (0 : ℝ) < Real.pi / 3 := by positivity
    have hone : (1 : ℝ) ≤ 1.5 / (Real.pi / 3) := by
      rw [le_div_iff hpos]
      linarith
    rw [min_eq_right hone]
    unfold round3
    norm_num [round_eq]
  rw [hmag] at h3
  rw [h1, h2, h3]
  refine ⟨?_, ?_, rfl⟩
  · simp [record_emit, c2Mid, SWIPE_MIN_FRAMES]
  · simp [record_emit]

/-- Claim C2 as amended: the rotation-angle buffer is cleared and bearing
detection skipped exactly when the confirmed pan event passes the cooldown
gate and is returned; when the gate suppresses the confirmation the swipe
call returns nothing, the angle buffer is left in place and bearing
detection is evaluated on that same call. -/
theorem claim2_swipe_priority_amended :
    (∀ (now : ℝ) (st : GestureRecognizer) (h : Hand),
      in_activation_zone h.palm_center →
      ¬ (dqAppend SMOOTHING_WINDOW st.palm_buf h.palm_center).length < 2 →
      ∀ (st2 : GestureRecognizer) (ev : Event),
        eval_swipe now
          { st with
            dist_buf := []
            tilt_buf := []
            palm_buf := dqAppend SMOOTHING_WINDOW st.palm_buf h.palm_center }
          (((dqAppend SMOOTHING_WINDOW st.palm_buf h.palm_center).getLastD
              ⟨0, 0⟩).x -
            ((dqAppend SMOOTHING_WINDOW st.palm_buf h.palm_center).headD
              ⟨0, 0⟩).x) = (st2, some ev) →
        eval_single_hand now st h = ({ st2 with angle_buf := [] }, some ev)) ∧
    (∀ (now : ℝ) (st : GestureRecognizer) (h : Hand),
      in_activation_zone h.palm_center →
      ¬ (dqAppend SMOOTHING_WINDOW st.palm_buf h.palm_center).length < 2 →
      ∀ st2 : GestureRecognizer,
        eval_swipe now
          { st with
            dist_buf := []
            tilt_buf := []
            palm_buf := dqAppend SMOOTHING_WINDOW st.palm_buf h.palm_center }
          (((dqAppend SMOOTHING_WINDOW st.palm_buf h.palm_center).getLastD
              ⟨0, 0⟩).x -
            ((dqAppend SMOOTHING_WINDOW st.palm_buf h.palm_center).headD
              ⟨0, 0⟩).x) = (st2, none) →
        eval_single_hand now st h = eval_bearing now st2 h) ∧
    (∀ (now v : ℝ) (s : GestureRecognizer),
      SWIPE_MIN_FRAMES ≤ s.swipe_frames_left →
      ¬ can_emit s now Gesture.pan_left →
      swipe_confirm now s v = (s, none)) ∧
    (∀ (now v : ℝ) (s : GestureRecognizer),
      ¬ SWIPE_MIN_FRAMES ≤ s.swipe_frames_left →
      SWIPE_MIN_FRAMES ≤ s.swipe_frames_right →
      ¬ can_emit s now Gesture.pan_right →
      swipe_confirm now s v = (s, none)) := by
  refine ⟨?_, ?_, ?_, ?_⟩
  · intro now st h hz hlen st2 ev heq
    rw [eval_single_hand_route now st h hz hlen]
    dsimp only
    rw [heq]
    simp
  · intro now st h hz hlen st2 heq
    rw [eval_single_hand_route now st h hz hlen]
    dsimp only
    rw [heq]
    simp
  · intro now v s hl hc
    rw [swipe_confirm_left now s v hl, if_neg hc]
  · intro now v s hl hr hc
    rw [swipe_confirm_right now s v hl hr, if_neg hc]

lemma two_hand_append_dist_buf (st : GestureRecognizer) (ha hb : Hand) :
    (two_hand_append st ha hb).dist_buf =
      dqAppend SMOOTHING_WINDOW st.dist_buf
        (dist2d ha.palm_center hb.palm_center) := by
  unfold two_hand_append
  cases hand_norm_dy ha <;> cases hand_norm_dy hb <;> rfl

lemma eval_two_hand_pitch_dist_buf (now : ℝ) (s : GestureRecognizer) :
    (eval_two_hand_pitch now s).1.dist_buf = s.dist_buf := by
  unfold eval_two_hand_pitch
  dsimp only
  split_ifs <;> simp [record_emit]

lemma two_hand_decide_dist_buf (now : ℝ) (s : GestureRecognizer) :
    (two_hand_decide now s).1.dist_buf = s.dist_buf := by
  unfold two_hand_decide
  dsimp only
  split_ifs <;>
    simp [record_emit, eval_two_hand_pitch_dist_buf]

/-- Claim C4: with at least two buffered distance samples, a window delta
of magnitude at least ZOOM_DIST_RATE_MIN classifies zoom_out for a
positive delta and zoom_in for a negative one with the capped magnitude,
and pitch is not evaluated on that call; a stable distance falls through
to pitch, which classifies pitch_up for a negative tilt delta and
pitch_down for a positive one; every remaining case returns nothing. -/
theorem claim4_two_hand_classification :
    (∀ (now : ℝ) (st : GestureRecognizer),
      st.dist_buf.length < 2 → two_hand_decide now st = (st, none)) ∧
    (∀ (now : ℝ) (st : GestureRecognizer),
      ¬ st.dist_buf.length < 2 →
      ZOOM_DIST_RATE_MIN ≤ |st.dist_buf.getLastD 0 - st.dist_buf.headD 0| →
      0 < st.dist_buf.getLastD 0 - st.dist_buf.headD 0 →
      two_hand_decide now st =
        (if can_emit { st with state := RState.zoom } now Gesture.zoom_out then
          (record_emit { st with state := RState.zoom } now Gesture.zoom_out,
            some ⟨Gesture.zoom_out, round3
              (min (|st.dist_buf.getLastD 0 - st.dist_buf.headD 0| / 0.3) 1)⟩)
         else ({ st with state := RState.zoom }, none))) ∧
    (∀ (now : ℝ) (st : GestureRecognizer),
      ¬ st.dist_buf.length < 2 →
      ZOOM_DIST_RATE_MIN ≤ |st.dist_buf.getLastD 0 - st.dist_buf.headD 0| →
      st.dist_buf.getLastD 0 - st.dist_buf.headD 0 < 0 →
      two_hand_decide now st =
        (if can_emit { st with state := RState.zoom } now Gesture.zoom_in then
          (record_emit { st with state := RState.zoom } now Gesture.zoom_in,
            some ⟨Gesture.zoom_in, round3
              (min (|st.dist_buf.getLastD 0 - st.dist_buf.headD 0| / 0.3) 1)⟩)
         else ({ st with state := RState.zoom }, none))) ∧
    (∀ (now : ℝ) (st : GestureRecognizer),
      ¬ st.dist_buf.length < 2 →
      ¬ ZOOM_DIST_RATE_MIN ≤ |st.dist_buf.getLastD 0 - st.dist_buf.headD 0| →
      two_hand_decide now st = eval_two_hand_pitch now st) ∧
    (∀ (now : ℝ) (st : GestureRecognizer),
      st.tilt_buf.length < 2 → eval_two_hand_pitch now st = (st, none)) ∧
    (∀ (now : ℝ) (st : GestureRecognizer),
      ¬ st.tilt_buf.length < 2 →
      |st.tilt_buf.getLastD 0 - st.tilt_buf.headD 0| < PITCH_TILT_RATE_MIN →
      eval_two_hand_pitch now st = (st, none)) ∧
    (∀ (now : ℝ) (st : GestureRecognizer),
      ¬ st.tilt_buf.length < 2 →
      ¬ |st.tilt_buf.getLastD 0 - st.tilt_buf.headD 0| < PITCH_TILT_RATE_MIN →
      st.tilt_buf.getLastD 0 - st.tilt_buf.headD 0 < 0 →
      eval_two_hand_pitch now st =
        (if can_emit { st with state := RState.pitch_up } now
            Gesture.pitch_up then
          (record_emit { st with state := RState.pitch_up } now
            Gesture.pitch_up,
           some ⟨Gesture.pitch_up, round3
             (min (|st.tilt_buf.getLastD 0 - st.tilt_buf.headD 0| / 0.3) 1)⟩)
         else ({ st with state := RState.pitch_up }, none))) ∧
    (∀ (now : ℝ) (st : GestureRecognizer),
      ¬ st.tilt_buf.length < 2 →
      ¬ |st.tilt_buf.getLastD 0 - st.tilt_buf.headD 0| < PITCH_TILT_RATE_MIN →
      ¬ st.tilt_buf.getLastD 0 - st.tilt_buf.headD 0 < 0 →
      eval_two_hand_pitch now st =
        (if can_emit { st with state := RState.pitch_down } now
            Gesture.pitch_down then
          (record_emit { st with state := RState.pitch_down } now
            Gesture.pitch_down,
           some ⟨Gesture.pitch_down, round3
             (min (|st.tilt_buf.getLastD 0 - st.tilt_buf.headD 0| / 0.3) 1)⟩)
         else ({ st with state := RState.pitch_down }, none))) := by
  refine ⟨two_hand_decide_short, ?_, ?_, two_hand_decide_to_pitch,
    eval_two_hand_pitch_short, eval_two_hand_pitch_small,
    eval_two_hand_pitch_up, eval_two_hand_pitch_down⟩
  · intro now st h2 hz hpos
    rw [two_hand_decide_zoom now st h2 hz, if_pos hpos]
  · intro now st h2 hz hneg
    rw [two_hand_decide_zoom now st h2 hz, if_neg (not_lt.mpr hneg.le)]

/-- Claim C3: the per-category cooldown intervals are 50 ms for pitch and
bearing kinds and 80 ms for zoom and pan kinds; along any frame sequence
the emission times of one kind, measured from the recorded baseline, are
chained at least the category interval apart; an emission passed the gate
against the pre-state and stamps its kind with the frame time; a
qualifying zoom candidate inside the interval is swallowed with no
rollback (the decision state is returned unchanged apart from the state
write, and the distance buffer keeps the appended sample independently of
the gate), while a qualifying candidate with the gate open is emitted. -/
theorem claim3_cooldown_separation :
    (cooldown_ms Gesture.pitch_up = 50 ∧ cooldown_ms Gesture.pitch_down = 50 ∧
     cooldown_ms Gesture.bearing_cw = 50 ∧
     cooldown_ms Gesture.bearing_ccw = 50 ∧
     cooldown_ms Gesture.zoom_in = 80 ∧ cooldown_ms Gesture.zoom_out = 80 ∧
     cooldown_ms Gesture.pan_left = 80 ∧ cooldown_ms Gesture.pan_right = 80) ∧
    (∀ (k : Gesture) (frames : List (ℝ × HandData)) (st : GestureRecognizer),
      List.Chain (fun t1 t2 => cooldown_ms k ≤ (t2 - t1) * 1000)
        ((st.cooldowns k).getD 0)
        (((emissions st frames).filter fun p => p.2.gesture = k).map
          Prod.fst)) ∧
    (∀ (now : ℝ) (st : GestureRecognizer) (hd : HandData) (e : Event),
      (update now st hd).2 = some e →
      cooldown_ms e.gesture ≤
        (now - ((st.cooldowns e.gesture).getD 0)) * 1000 ∧
      (update now st hd).1.cooldowns e.gesture = some now) ∧
    (∀ (now : ℝ) (st : GestureRecognizer),
      ¬ st.dist_buf.length < 2 →
      ZOOM_DIST_RATE_MIN ≤ |st.dist_buf.getLastD 0 - st.dist_buf.headD 0| →
      ¬ can_emit { st with state := RState.zoom } now
        (if 0 < st.dist_buf.getLastD 0 - st.dist_buf.headD 0 then
          Gesture.zoom_out else Gesture.zoom_in) →
      two_hand_decide now st = ({ st with state := RState.zoom }, none)) ∧
    (∀ (now : ℝ) (st : GestureRecognizer) (ha hb : Hand),
      ¬ (¬ in_activation_zone ha.palm_center ∧
         ¬ in_activation_zone hb.palm_center) →
      (eval_two_hand now st ha hb).1.dist_buf =
        dqAppend SMOOTHING_WINDOW st.dist_buf
          (dist2d ha.palm_center hb.palm_center)) ∧
    (∀ (now : ℝ) (st : GestureRecognizer),
      ¬ st.dist_buf.length < 2 →
      ZOOM_DIST_RATE_MIN ≤ |st.dist_buf.getLastD 0 - st.dist_buf.headD 0| →
      can_emit { st with state := RState.zoom } now
        (if 0 < st.dist_buf.getLastD 0 - st.dist_buf.headD 0 then
          Gesture.zoom_out else Gesture.zoom_in) →
      (two_hand_decide now st).2 =
        some ⟨(if 0 < st.dist_buf.getLastD 0 - st.dist_buf.headD 0 then
            Gesture.zoom_out else Gesture.zoom_in),
          round3
            (min (|st.dist_buf.getLastD 0 - st.dist_buf.headD 0| / 0.3) 1)⟩) := by
  refine ⟨?_, ?_, ?_, ?_, ?_, ?_⟩
  · exact ⟨rfl, rfl, rfl, rfl, rfl, rfl, rfl, rfl⟩
  · intro k frames st
    exact emissions_chain k frames st
  · intro now st hd e h
    exact update_emit now st hd e h
  · intro now st h2 hz hc
    rw [two_hand_decide_zoom now st h2 hz, if_neg hc]
  · intro now st ha hb h
    rw [eval_two_hand_inzone now st ha hb h, two_hand_decide_dist_buf,
      two_hand_append_dist_buf]
  · intro now st h2 hz hc
    rw [two_hand_decide_zoom now st h2 hz, if_pos hc]

lemma round3_unit {x : ℝ} (h0 : 0 ≤ x) (h1 : x ≤ 1) :
    0 ≤ round3 x ∧ round3 x ≤ 1 := by
  unfold round3
  constructor
  · apply div_nonneg _ (by norm_num)
    have h2 : (0 : ℤ) ≤ round (x * 1000) := by
      rw [round_eq]
      refine Int.le_floor.mpr ?_
      push_cast
      linarith
    exact_mod_cast h2
  · rw [div_le_one (by norm_num)]
    have h3 : round (x * 1000) ≤ 1000 := by
      rw [round_eq]
      have hlt : (⌊x * 1000 + 1 / 2⌋ : ℤ) < 1001 := by
        refine Int.floor_lt.mpr ?_
        push_cast
        linarith
      omega
    exact_mod_cast h3

lemma clamp_unit (a c : ℝ) (hc : 0 < c) :
    0 ≤ min (|a| / c) 1 ∧ min (|a| / c) 1 ≤ 1 :=
  ⟨le_min (by positivity) zero_le_one, min_le_right _ _⟩

lemma mem_dqAppend {α : Type} {m : ℕ} {buf : List α} {a q : α}
    (h : q ∈ dqAppend m buf a) : q ∈ buf ∨ q = a := by
  unfold dqAppend at h
  dsimp only at h
  split_ifs at h with h1
  · have h2 := List.drop_subset _ _ h
    rcases List.mem_append.mp h2 with h3 | h3
    · exact Or.inl h3
    · exact Or.inr (List.mem_singleton.mp h3)
  · rcases List.mem_append.mp h with h3 | h3
    · exact Or.inl h3
    · exact Or.inr (List.mem_singleton.mp h3)

lemma headD_mem {α : Type} {l : List α} (d : α) (h : l ≠ []) :
    l.headD d ∈ l := by
  cases l with
  | nil => exact absurd rfl h
  | cons a t => simp

lemma getLastD_mem {α : Type} {l : List α} (d : α) (h : l ≠ []) :
    l.getLastD d ∈ l := by
  rw [List.getLastD_eq_getLast?, List.getLast?_eq_getLast l h, Option.getD_some]
  exact List.getLast_mem h

lemma swipe_confirm_mag (now : ℝ) (s : GestureRecognizer) (v : ℝ) (e : Event)
    (h : (swipe_confirm now s v).2 = some e) : e.magnitude = round3 |v| := by
  unfold swipe_confirm at h
  split_ifs at h <;>
    first
      | (simp at h; done)
      | (rw [← Option.some.inj h])

lemma eval_swipe_mag (now : ℝ) (s : GestureRecognizer) (v : ℝ) (e : Event)
    (h : (eval_swipe now s v).2 = some e) : e.magnitude = round3 |v| := by
  unfold eval_swipe at h
  split_ifs at h <;>
    first
      | (simp at h; done)
      | exact swipe_confirm_mag _ _ _ _ h

lemma eval_two_hand_pitch_mag (now : ℝ) (s : GestureRecognizer) (e : Event)
    (h : (eval_two_hand_pitch now s).2 = some e) :
    0 ≤ e.magnitude ∧ e.magnitude ≤ 1 := by
  unfold eval_two_hand_pitch at h
  dsimp only at h
  split_ifs at h <;>
    first
      | (simp at h; done)
      | (rw [← Option.some.inj h]
         obtain ⟨h0, h1⟩ := clamp_unit
           (s.tilt_buf.getLastD 0 - s.tilt_buf.headD 0) 0.3 (by norm_num)
         exact round3_unit h0 h1)

lemma bearing_decide_mag (now : ℝ) (s : GestureRecognizer) (e : Event)
    (h : (bearing_decide now s).2 = some e) :
    0 ≤ e.magnitude ∧ e.magnitude ≤ 1 := by
  unfold bearing_decide at h
  dsimp only at h
  split_ifs at h <;>
    first
      | (simp at h; done)
      | (rw [← Option.some.inj h]
         obtain ⟨h0, h1⟩ := clamp_unit (total_delta s.angle_buf) (Real.pi / 3)
           (by positivity)
         exact round3_unit h0 h1)

lemma two_hand_decide_mag (now : ℝ) (s : GestureRecognizer) (e : Event)
    (h : (two_hand_decide now s).2 = some e) :
    0 ≤ e.magnitude ∧ e.magnitude ≤ 1 := by
  unfold two_hand_decide at h
  dsimp only at h
  split_ifs at h <;>
    first
      | (simp at h; done)
      | exact eval_two_hand_pitch_mag _ _ _ h
      | (rw [← Option.some.inj h]
         obtain ⟨h0, h1⟩ := clamp_unit
           (s.dist_buf.getLastD 0 - s.dist_buf.headD 0) 0.3 (by norm_num)
         exact round3_unit h0 h1)

lemma eval_bearing_mag (now : ℝ) (s : GestureRecognizer) (hh : Hand)
    (e : Event) (h : (eval_bearing now s hh).2 = some e) :
    0 ≤ e.magnitude ∧ e.magnitude ≤ 1 := by
  unfold eval_bearing at h
  dsimp only at h
  split_ifs at h <;>
    first
      | (simp at h; done)
      | exact bearing_decide_mag _ _ _ h

lemma eval_two_hand_mag (now : ℝ) (st : GestureRecognizer) (ha hb : Hand)
    (e : Event) (h : (eval_two_hand now st ha hb).2 = some e) :
    0 ≤ e.magnitude ∧ e.magnitude ≤ 1 := by
  unfold eval_two_hand at h
  dsimp only at h
  split_ifs at h <;>
    first
      | (simp at h; done)
      | exact two_hand_decide_mag _ _ _ h

lemma eval_single_hand_mag (now : ℝ) (st : GestureRecognizer) (hh : Hand)
    (e : Event)
    (hbuf : ∀ p ∈ st.palm_buf, 0 ≤ p.x ∧ p.x ≤ 1)
    (hhand : hand_in_range hh)
    (h : (eval_single_hand now st hh).2 = some e) :
    0 ≤ e.magnitude ∧ e.magnitude ≤ 1 := by
  have hmem : ∀ q ∈ dqAppend SMOOTHING_WINDOW st.palm_buf hh.palm_center,
      0 ≤ q.x ∧ q.x ≤ 1 := by
    intro q hq
    rcases mem_dqAppend hq with hq' | hq'
    · exact hbuf q hq'
    · rw [hq']
      exact hhand.2.2.2.2.1
  unfold eval_single_hand at h
  dsimp only at h
  split_ifs at h with h1 h2 h3 <;>
    first
      | (simp at h; done)
      | exact eval_bearing_mag _ _ _ _ h
      | (have hne : dqAppend SMOOTHING_WINDOW st.palm_buf hh.palm_center ≠ [] := by
           intro hnil
           rw [hnil] at h2
           exact h2 (by norm_num)
         obtain ⟨ha0, ha1⟩ := hmem _ (getLastD_mem ⟨0, 0⟩ hne)
         obtain ⟨hb0, hb1⟩ := hmem _ (headD_mem ⟨0, 0⟩ hne)
         have hmag := eval_swipe_mag _ _ _ _ h
         rw [hmag]
         exact round3_unit (abs_nonneg _)
           (abs_le.mpr ⟨by linarith, by linarith⟩))

lemma swipe_confirm_palm (now : ℝ) (s : GestureRecognizer) (v : ℝ) :
    (swipe_confirm now s v).1.palm_buf = s.palm_buf := by
  unfold swipe_confirm
  split_ifs <;> simp [record_emit]

lemma eval_swipe_palm (now : ℝ) (s : GestureRecognizer) (v : ℝ) :
    (eval_swipe now s v).1.palm_buf = s.palm_buf := by
  unfold eval_swipe
  split_ifs <;> simp [swipe_confirm_palm]

lemma bearing_decide_palm (now : ℝ) (s : GestureRecognizer) :
    (bearing_decide now s).1.palm_buf = s.palm_buf := by
  unfold bearing_decide
  dsimp only
  split_ifs <;> simp [record_emit]

lemma eval_bearing_palm (now : ℝ) (s : GestureRecognizer) (hh : Hand) :
    (eval_bearing now s hh).1.palm_buf = s.palm_buf := by
  unfold eval_bearing
  dsimp only
  split_ifs
  · rfl
  · rw [bearing_decide_palm]

lemma eval_two_hand_pitch_palm (now : ℝ) (s : GestureRecognizer) :
    (eval_two_hand_pitch now s).1.palm_buf = s.palm_buf := by
  unfold eval_two_hand_pitch
  dsimp only
  split_ifs <;> simp [record_emit]

lemma two_hand_decide_palm (now : ℝ) (s : GestureRecognizer) :
    (two_hand_decide now s).1.palm_buf = s.palm_buf := by
  unfold two_hand_decide
  dsimp only
  split_ifs <;> simp [record_emit, eval_two_hand_pitch_palm]

lemma two_hand_append_palm (st : GestureRecognizer) (ha hb : Hand) :
    (two_hand_append st ha hb).palm_buf = st.palm_buf := by
  unfold two_hand_append
  cases hand_norm_dy ha <;> cases hand_norm_dy hb <;> rfl

lemma eval_two_hand_palm (now : ℝ) (st : GestureRecognizer) (ha hb : Hand) :
    (eval_two_hand now st ha hb).1.palm_buf = [] := by
  unfold eval_two_hand
  dsimp only
  split_ifs
  · rfl
  · rw [two_hand_decide_palm, two_hand_append_palm]

lemma default_hand_in_range : hand_in_range ⟨⟨0, 0⟩, ⟨0, 0⟩, ⟨0, 0⟩⟩ := by
  unfold hand_in_range
  norm_num

lemma getD_hand_in_range (hd : HandData) (i : ℕ)
    (hh : ∀ h ∈ hd.hands, hand_in_range h) :
    hand_in_range (hd.hands.getD i ⟨⟨0, 0⟩, ⟨0, 0⟩, ⟨0, 0⟩⟩) := by
  rcases hget : hd.hands.get? i with _ | hx
  · rw [List.getD_eq_get?, hget]
    exact default_hand_in_range
  · rw [List.getD_eq_get?, hget]
    exact hh hx (List.get?_mem hget)

lemma eval_single_hand_palm_inv (now : ℝ) (st : GestureRecognizer)
    (hh : Hand)
    (hbuf : ∀ p ∈ st.palm_buf, 0 ≤ p.x ∧ p.x ≤ 1)
    (hhand : hand_in_range hh) :
    ∀ p ∈ (eval_single_hand now st hh).1.palm_buf, 0 ≤ p.x ∧ p.x ≤ 1 := by
  have hmem : ∀ q ∈ dqAppend SMOOTHING_WINDOW st.palm_buf hh.palm_center,
      0 ≤ q.x ∧ q.x ≤ 1 := by
    intro q hq
    rcases mem_dqAppend hq with hq' | hq'
    · exact hbuf q hq'
    · rw [hq']
      exact hhand.2.2.2.2.1
  unfold eval_single_hand
  dsimp only
  split_ifs <;> intro p hp <;>
    first
      | (simp [reset_buffers] at hp; done)
      | exact hmem p hp
      | (simp only [] at hp
         rw [eval_swipe_palm] at hp
         exact hmem p hp)
      | (rw [eval_bearing_palm, eval_swipe_palm] at hp
         exact hmem p hp)

/-- Claim C8: on an observation whose landmark and palm-center coordinates
lie in the unit interval, and with every buffered palm x-coordinate in the
unit interval (an invariant the call itself preserves, shown in the second
conjunct), any emitted event's magnitude — the capped zoom, pitch and
bearing intensities as well as the uncapped pan velocity, which is a
difference of two buffered palm x-coordinates — lies in the unit
interval. -/
theorem claim8_magnitude_bounds (now : ℝ) (st : GestureRecognizer)
    (hd : HandData)
    (hhands : ∀ h ∈ hd.hands, hand_in_range h)
    (hbuf : ∀ p ∈ st.palm_buf, 0 ≤ p.x ∧ p.x ≤ 1) :
    (∀ e : Event, (update now st hd).2 = some e →
      0 ≤ e.magnitude ∧ e.magnitude ≤ 1) ∧
    (∀ p ∈ (update now st hd).1.palm_buf, 0 ≤ p.x ∧ p.x ≤ 1) := by
  constructor
  · intro e he
    unfold update at he
    split_ifs at he <;>
      first
        | (simp at he; done)
        | exact eval_two_hand_mag _ _ _ _ _ he
        | exact eval_single_hand_mag _ _ _ _ hbuf
            (getD_hand_in_range hd 0 hhands) he
  · intro p hp
    unfold update at hp
    split_ifs at hp <;>
      first
        | (simp [reset_buffers] at hp; done)
        | (rw [eval_two_hand_palm] at hp; simp at hp; done)
        | exact eval_single_hand_palm_inv now st _ hbuf
            (getD_hand_in_range hd 0 hhands) p hp

/-- Concrete instance of claim C8: a two-hand zoom frame from the
freshly initialised recognizer with one buffered distance sample; all
hypotheses are discharged at this input. -/
theorem claim8_witness :
    (∀ e : Event, (update 1000 w8St w8Hd).2 = some e →
      0 ≤ e.magnitude ∧ e.magnitude ≤ 1) ∧
    (∀ p ∈ (update 1000 w8St w8Hd).1.palm_buf, 0 ≤ p.x ∧ p.x ≤ 1) :=
  claim8_magnitude_bounds 1000 w8St w8Hd
    (by
      intro h hmemb
      simp [w8Hd] at hmemb
      rcases hmemb with rfl | rfl <;>
        · unfold hand_in_range
          norm_num [w8HandA, w8HandB])
    (by
      intro p hp
      simp [w8St, init_state] at hp)

end Aegis
